import Mathlib

/-!
Shallow embedding of the AirPlay protocol-translation layer of
src/airplayer/protocol_handler.py (Flask handlers /reverse, /play, /scrub,
/rate, /playback-info) together with the pieces of Python semantics the
handlers rely on (the builtin float() on decimal literals, the %f format
directive, truthiness of float-or-None values, email header parsing).

Backend side effects are modelled as a trace: each handler returns the list
of backend-contract calls it performs, in order, together with its response
(or the uncaught Python exception it raises, via Except).
-/

deriving instance DecidableEq for Except

namespace Airplayer

/-- An uncaught Python exception escaping a handler. -/
inductive PyErr where
  | valueError
  | typeError
  | indexError
  | decodeError
deriving DecidableEq

/-- One call on the media-backend capability contract
(play_movie, set_start_position, set_player_position, play, pause, ...). -/
inductive BackendCall where
  | play_movie (url : String)
  | set_start_position (pct : ℚ)
  | set_player_position (seconds : ℤ)
  | play
  | pause
  | stop_playing
  | show_picture (data : List Nat)
deriving DecidableEq

/-! ### Python primitives used by the handlers -/

/-- ASCII decimal digit test. -/
def isDigit (c : Char) : Bool := ('0' ≤ c) && (c ≤ '9')

/-- Whitespace characters stripped by the Python builtin float(). -/
def isSpace (c : Char) : Bool := (c = ' ') || (c = '\t') || (c = '\r') || (c = '\n')

/-- Value of a list of decimal digit characters. -/
def digitsToNat (cs : List Char) : ℕ :=
  cs.foldl (fun n c => 10 * n + (c.toNat - 48)) 0

/-- Mantissa value of integer digits ip and fractional digits fp. -/
def mantissa (ip fp : List Char) : ℚ :=
  (digitsToNat ip : ℚ) + (digitsToNat fp : ℚ) / ((10 : ℚ) ^ fp.length)

/-- Apply a decimal exponent to a mantissa. -/
def applyExp (m : ℚ) (e : ℤ) : ℚ :=
  if 0 ≤ e then m * (10 : ℚ) ^ e.toNat else m / (10 : ℚ) ^ (-e).toNat

/-- Digits of an exponent part: nonempty, all decimal digits. -/
def parseExpDigits (cs : List Char) : Option ℤ :=
  if cs.isEmpty || cs.any (fun c => !isDigit c) then none
  else some (digitsToNat cs : ℤ)

/-- Exponent sign and digits after the e marker. -/
def parseExpTail : List Char → Option ℤ
  | '+' :: rest => parseExpDigits rest
  | '-' :: rest => (parseExpDigits rest).map Neg.neg
  | cs => parseExpDigits cs

/-- Optional exponent part of a float literal; empty input means exponent 0. -/
def parseExp : List Char → Option ℤ
  | [] => some 0
  | 'e' :: rest => parseExpTail rest
  | 'E' :: rest => parseExpTail rest
  | _ => none

/-- Unsigned decimal float literal: digits, optional point and fraction
digits (at least one digit overall), optional exponent. -/
def parseUnsigned (cs : List Char) : Option ℚ :=
  let intPart := cs.takeWhile isDigit
  let rest1 := cs.dropWhile isDigit
  match rest1 with
  | '.' :: rest2 =>
    let fracPart := rest2.takeWhile isDigit
    let rest3 := rest2.dropWhile isDigit
    if intPart.isEmpty && fracPart.isEmpty then none
    else (parseExp rest3).map (fun e => applyExp (mantissa intPart fracPart) e)
  | _ =>
    if intPart.isEmpty then none
    else (parseExp rest1).map (fun e => applyExp (digitsToNat intPart : ℚ) e)

/-- Optional sign in front of a float literal. -/
def parseSigned : List Char → Option ℚ
  | '+' :: rest => parseUnsigned rest
  | '-' :: rest => (parseUnsigned rest).map Neg.neg
  | cs => parseUnsigned cs

/-- Model of the Python builtin float() applied to a string, on the subset
of finite decimal literals (optional sign, digits, optional point and
exponent, surrounding whitespace). none models the ValueError raised on
unparseable input. The inf/nan spellings and digit underscores accepted by
Python are outside the modelled subset; no handler input in the claims uses
them. Values are exact rationals, standing for the real numbers the wire
strings denote. -/
def pyFloat (s : String) : Option ℚ :=
  let cs := s.toList.dropWhile isSpace
  let cs := (cs.reverse.dropWhile isSpace).reverse
  parseSigned cs

/-- Model of the Python builtin int() on a finite float value: truncation
toward zero. -/
def pyInt (q : ℚ) : ℤ :=
  if 0 ≤ q then ⌊q⌋ else -⌊-q⌋

/-- Truthiness of a Python float-or-None value, as used by the handlers in
expressions such as: if not position. -/
def pyTruthy : Option ℚ → Bool
  | none => false
  | some q => q != 0

/-- Pad a natural number with leading zeros to the given width. -/
def natPad (n width : ℕ) : String :=
  let s := toString n
  String.mk (List.replicate (width - s.length) '0') ++ s

/-- Model of the Python %f format directive on a finite value: six digits
after the decimal point (half-up rounding at the sixth digit; every value
formatted by the handlers in the claims is exact at six digits, so the tie
rule is never exercised). -/
def formatF (q : ℚ) : String :=
  let sign := if q < 0 then "-" else ""
  let scaled : ℕ := (⌊|q| * 1000000 + 1 / 2⌋).toNat
  sign ++ toString (scaled / 1000000) ++ "." ++ natPad (scaled % 1000000) 6

/-! ### Payload decoding for POST /play -/

/-- Lowercased ASCII comparison of two field names, as performed by the
lookup methods of the email message objects returned by
email.parser.BytesHeaderParser (Python matches header names after
str.lower on both sides). -/
def lowerEq (a b : String) : Bool :=
  a.toList.map Char.toLower == b.toList.map Char.toLower

/-- Drop surrounding whitespace of a header value. -/
def stripChars (cs : List Char) : List Char :=
  ((cs.dropWhile isSpace).reverse.dropWhile isSpace).reverse

/-- Split a header line at its first colon. -/
def splitAtColon : List Char → Option (List Char × List Char)
  | [] => none
  | c :: rest =>
    if c = ':' then some ([], rest)
    else (splitAtColon rest).map (fun p => (c :: p.1, p.2))

/-- Split raw text into lines at newline characters. -/
def splitLinesAux : List Char → List Char → List (List Char)
  | [], acc => [acc.reverse]
  | '\n' :: rest, acc => acc.reverse :: splitLinesAux rest []
  | c :: rest, acc => splitLinesAux rest (c :: acc)

/-- Drop one trailing carriage return of a line. -/
def dropCR (cs : List Char) : List Char :=
  match cs.reverse with
  | '\r' :: rest => rest.reverse
  | _ => cs

/-- Model of email.parser.BytesHeaderParser().parsebytes as used on the
/play request body: header lines Name: value up to the first blank line,
names split at the first colon, values stripped of surrounding whitespace,
lines without a colon ignored, continuation lines not modelled (no claim
input uses them). -/
def parsebytes (s : String) : List (String × String) :=
  let lines := (splitLinesAux s.toList []).map dropCR
  let headerLines := lines.takeWhile (fun l => !l.isEmpty)
  headerLines.filterMap (fun l =>
    (splitAtColon l).map (fun p => (String.mk p.1, String.mk (stripChars p.2))))

/-- The decoded /play body: either a dictionary deserialized from a binary
property list, or an email message object from the header-style fallback.
Plist values are modelled through their string form, the form the handler
feeds to float(). -/
inductive Body where
  | plist (d : List (String × String))
  | message (hs : List (String × String))
deriving DecidableEq

/-- Field lookup on a decoded body, modelling the Python expressions
k in body / body[k]: exact-key dictionary access on the plist path,
case-insensitive header access on the email message path; on both paths the
first matching entry wins. -/
def Body.get : Body → String → Option String
  | .plist d, k => (d.find? (fun p => p.1 == k)).map (fun p => p.2)
  | .message hs, k => (hs.find? (fun p => lowerEq p.1 k)).map (fun p => p.2)

/-- Modelled from the spec: lib.biplist.readPlistFromString is repository
code not under src/. Per the spec it deserializes a binary property list to
a field mapping or fails on malformed bytes; we model only that interface,
as an arbitrary decoding function handed to the /play handler. -/
def PlistDecoder : Type := String → Except Unit (List (String × String))

/-- The binary-plist MIME type checked by the /play handler. -/
def binaryPlistMime : String := "application/x-apple-binary-plist"

/-- Body decoding step of the /play handler: the binary-plist path iff the
declared content type is the binary-plist MIME type, the header-style
fallback otherwise. A failing plist decode is not wrapped in any try/except
by the handler, so it escapes as an uncaught exception. -/
def decodeBody (dec : PlistDecoder) (contentType : Option String) (data : String) :
    Except PyErr Body :=
  if contentType == some binaryPlistMime then
    match dec data with
    | .ok d => .ok (.plist d)
    | .error _ => .error .decodeError
  else
    .ok (.message (parsebytes data))

/-- Field extraction and backend dispatch of the /play handler
(protocol_handler.py lines 57-74): on Content-Location call play_movie,
then on Start-Position convert the [0,1] fraction to a percentage and call
set_start_position. In the source the try/except ValueError encloses only
the body lookup (which cannot raise ValueError), while float(str_pos) sits
in the else branch, so an unparseable Start-Position escapes as an uncaught
ValueError. -/
def playBody (b : Body) : Except PyErr (List BackendCall) :=
  match b.get "Content-Location" with
  | none => .ok []
  | some url =>
    match b.get "Start-Position" with
    | none => .ok [.play_movie url]
    | some strPos =>
      match pyFloat strPos with
      | none => .error .valueError
      | some f => .ok [.play_movie url, .set_start_position (f * 100)]

/-- The POST /play handler: decode the body by content type, dispatch to
the backend, respond with an empty body on success. -/
def play (dec : PlistDecoder) (contentType : Option String) (data : String) :
    Except PyErr (List BackendCall × String) := do
  let b ← decodeBody dec contentType data
  let calls ← playBody b
  pure (calls, "")

/-! ### The remaining handlers -/

/-- An HTTP response as assembled by a handler: status code, the headers the
handler sets explicitly, and the body. Transport-added default headers are
out of scope (spec section 1 excludes transport-level HTTP mechanics). -/
structure HttpResponse where
  status : ℕ
  headers : List (String × String)
  body : String
deriving DecidableEq

/-- The POST /reverse handler: a constant function of the request. It builds
an empty response, sets status 101, sets the Upgrade and Connection headers,
and touches no backend method (empty trace). -/
def reverse (reqHeaders : List (String × String)) (reqData : String) :
    HttpResponse × List BackendCall :=
  let _ := reqHeaders
  let _ := reqData
  ({ status := 101
     headers := [("Upgrade", "PTTH/1.0"), ("Connection", "Upgrade")]
     body := "" }, [])

/-- First value bound to a query-parameter name, modelling the Flask
expressions k in request.args / request.args[k] (case-sensitive names,
first binding wins). -/
def argsGet (args : List (String × String)) (k : String) : Option String :=
  (args.find? (fun p => p.1 == k)).map (fun p => p.2)

/-- The GET /scrub branch (protocol_handler.py lines 87-100), applied to the
pair returned by the backend get_player_position query. A falsy position
resets both values to zero, then the body is rendered with the %f directive,
duration first. Rendering a None duration next to a truthy position is a
TypeError, uncaught in the source. -/
def scrubGet (position duration : Option ℚ) : Except PyErr String :=
  let pd := if pyTruthy position then (position, duration) else (some 0, some 0)
  match pd.2, pd.1 with
  | some d, some p => .ok ("duration: " ++ formatF d ++ "\r\nposition: " ++ formatF p ++ "\r\n")
  | _, _ => .error .typeError

/-- The POST /scrub branch (protocol_handler.py lines 102-119): when a
position query parameter exists, the source evaluates
request.args[position][0] - in Flask args lookup yields the full value
string, so the [0] index takes its first character (IndexError on an empty
value, uncaught since the try only catches ValueError). That character goes
through int(float(.)); a ValueError there is caught and logged with no
backend call; otherwise set_player_position receives the result. -/
def scrubPost (args : List (String × String)) : Except PyErr (List BackendCall × String) :=
  match argsGet args "position" with
  | none => .ok ([], "")
  | some v =>
    match v.toList with
    | [] => .error .indexError
    | c :: _ =>
      match pyFloat (String.mk [c]) with
      | none => .ok ([], "")
      | some f => .ok ([.set_player_position (pyInt f)], "")

/-- The POST /rate handler (protocol_handler.py lines 122-147): when a value
query parameter exists, the source evaluates
bool(float(request.args[value][0])) - again the [0] takes the first
character of the value string (IndexError on an empty value), and here the
float call is wrapped in no try/except at all, so a non-numeric first
character escapes as an uncaught ValueError. A truthy result calls play,
a falsy one calls pause; with the parameter absent nothing is called. -/
def rate (args : List (String × String)) : Except PyErr (List BackendCall × String) :=
  match argsGet args "value" with
  | none => .ok ([], "")
  | some v =>
    match v.toList with
    | [] => .error .indexError
    | c :: _ =>
      match pyFloat (String.mk [c]) with
      | none => .error .valueError
      | some f => .ok ((if f != 0 then [.play] else [.pause]), "")

/-- Modelled from the spec: appletv.PLAYBACK_INFO is repository code not
under src/. Per the spec it is a fixed property-list template rendered by
literal substitution of (duration, duration, position, playing-flag,
duration); we model the rendered document by that substituted tuple. -/
structure PlaybackInfoDoc where
  durationA : ℚ
  durationB : ℚ
  position : ℚ
  playingFlag : ℤ
  durationC : ℚ
deriving DecidableEq

/-- The GET /playback-info handler (protocol_handler.py lines 235-253),
applied to the is_playing flag and the position/duration pair read from the
backend. A falsy position resets both values to zero; otherwise both run
through float(), and float(None) on a null duration is a TypeError,
uncaught in the source. On success the template is rendered with the plist
content type. -/
def playback_info (playing : Bool) (position duration : Option ℚ) :
    Except PyErr (PlaybackInfoDoc × String) :=
  if pyTruthy position then
    match position, duration with
    | some p, some d =>
      .ok ({ durationA := d, durationB := d, position := p
             playingFlag := if playing then 1 else 0, durationC := d },
           "text/x-apple-plist+xml")
    | _, _ => .error .typeError
  else
    .ok ({ durationA := 0, durationB := 0, position := 0
           playingFlag := if playing then 1 else 0, durationC := 0 },
         "text/x-apple-plist+xml")

/-- Success test on a handler result, for stating which backend replies
yield a well-formed response. -/
def exceptOk {α : Type} (r : Except PyErr α) : Bool :=
  match r with
  | .ok _ => true
  | .error _ => false

/-! ### Claims -/

/-- Claim C1: for every POST /play request whose decoded body contains
Content-Location=U, the handler calls play_movie(U) exactly once; if the
body also contains Start-Position=s with s a parseable float in [0,1], the
handler additionally calls set_start_position(s*100) exactly once, after the
play_movie call; if Content-Location is absent, no backend method is
called. The trace lists the backend calls in order. -/
theorem c1_play_dispatch :
    ∀ (dec : PlistDecoder) (ct : Option String) (data : String) (b : Body),
      decodeBody dec ct data = Except.ok b →
      ((b.get "Content-Location" = none →
          play dec ct data = Except.ok ([], "")) ∧
       (∀ url, b.get "Content-Location" = some url →
          b.get "Start-Position" = none →
          play dec ct data = Except.ok ([BackendCall.play_movie url], "")) ∧
       (∀ url s f, b.get "Content-Location" = some url →
          b.get "Start-Position" = some s →
          pyFloat s = some f → 0 ≤ f → f ≤ 1 →
          play dec ct data =
            Except.ok ([BackendCall.play_movie url,
                        BackendCall.set_start_position (f * 100)], ""))) := by
  intro dec ct data b hdec
  refine ⟨?_, ?_, ?_⟩
  · intro h
    simp [play, hdec, playBody, h, Bind.bind, Except.bind, Functor.map, Except.map, Pure.pure, Except.pure]
  · intro url h1 h2
    simp [play, hdec, playBody, h1, h2, Bind.bind, Except.bind, Functor.map, Except.map, Pure.pure, Except.pure]
  · intro url s f h1 h2 h3 _ _
    simp [play, hdec, playBody, h1, h2, h3, Bind.bind, Except.bind, Functor.map, Except.map, Pure.pure, Except.pure]

/-- Witness for C1, exercising all three branches through the
header-style decoding path on concrete requests. -/
theorem c1_play_dispatch_witness :
    play (fun _ => Except.error ()) none "X-Other: 1\r\n" = Except.ok ([], "") ∧
    play (fun _ => Except.error ()) none "Content-Location: http://e/v.mp4\r\n" =
      Except.ok ([BackendCall.play_movie "http://e/v.mp4"], "") ∧
    play (fun _ => Except.error ()) none
        "Content-Location: http://e/v.mp4\r\nStart-Position: 0.5\r\n" =
      Except.ok ([BackendCall.play_movie "http://e/v.mp4",
                  BackendCall.set_start_position 50], "") := by
  refine ⟨?_, ?_, ?_⟩
  · exact (c1_play_dispatch (fun _ => Except.error ()) none "X-Other: 1\r\n"
      (Body.message [("X-Other", "1")]) (by with_unfolding_all rfl)).1
      (by with_unfolding_all rfl)
  · exact (c1_play_dispatch (fun _ => Except.error ()) none
      "Content-Location: http://e/v.mp4\r\n"
      (Body.message [("Content-Location", "http://e/v.mp4")])
      (by with_unfolding_all rfl)).2.1 "http://e/v.mp4"
      (by with_unfolding_all rfl) (by with_unfolding_all rfl)
  · have h := (c1_play_dispatch (fun _ => Except.error ()) none
      "Content-Location: http://e/v.mp4\r\nStart-Position: 0.5\r\n"
      (Body.message [("Content-Location", "http://e/v.mp4"),
                     ("Start-Position", "0.5")])
      (by with_unfolding_all rfl)).2.2 "http://e/v.mp4" "0.5" (1 / 2)
      (by with_unfolding_all rfl) (by with_unfolding_all rfl)
      (by with_unfolding_all rfl) (by norm_num) (by norm_num)
    norm_num at h
    exact h

/-- Claim C2: for GET /scrub, a (null, null) backend pair renders exactly
duration 0.000000 then position 0.000000, and a (12.5, 100.0) pair renders
exactly duration 100.000000 then position 12.500000, with %f formatting and
CRLF line ends. -/
theorem c2_scrub_get_format :
    scrubGet none none =
      Except.ok "duration: 0.000000\r\nposition: 0.000000\r\n" ∧
    scrubGet (some (25 / 2)) (some 100) =
      Except.ok "duration: 100.000000\r\nposition: 12.500000\r\n" := by
  constructor
  · with_unfolding_all rfl
  · with_unfolding_all rfl

/-- Claim C3 evaluated at the failing input: POST /scrub with position=42
reaches the backend as set_player_position(4), because the source indexes
the first character of the Flask query value; the unparseable case
(position=notanumber) does degrade to no call and empty success as the
claim states. -/
theorem c3_scrub_post_eval :
    scrubPost [("position", "42")] =
      Except.ok ([BackendCall.set_player_position 4], "") ∧
    scrubPost [("position", "notanumber")] = Except.ok ([], "") := by
  constructor
  · with_unfolding_all rfl
  · with_unfolding_all rfl

/-- Claim C4 evaluated at the failing input: a POST /play body whose
Start-Position does not parse as a float makes the handler raise an
uncaught ValueError (the try/except in the source wraps only the body
lookup, not the float conversion), instead of degrading to an empty
success. -/
theorem c4_play_unparseable_start_position :
    play (fun _ => Except.error ()) none
      "Content-Location: http://e/v.mp4\r\nStart-Position: abc\r\n" =
    Except.error PyErr.valueError := by
  with_unfolding_all rfl

/-- Counterexample to claim C5: a POST /play request declaring the
binary-plist content type whose body fails to decode does not produce the
empty success response the claim demands. -/
theorem c5_counterexample :
    play (fun _ => Except.error ()) (some binaryPlistMime) "not a plist" ≠
      Except.ok ([], "") := by
  have h : play (fun _ => Except.error ()) (some binaryPlistMime) "not a plist" =
      Except.error PyErr.decodeError := by with_unfolding_all rfl
  rw [h]
  intro hc
  exact Except.noConfusion hc

/-- Amended C5: for every POST /play request declaring the binary-plist
content type whose body fails to decode, the failure is not contained: the
decode error propagates out of the handler uncaught (so no empty success
response and no backend call is produced). -/
theorem c5_plist_decode_error_propagates :
    ∀ (dec : PlistDecoder) (data : String) (e : Unit),
      dec data = Except.error e →
      play dec (some binaryPlistMime) data = Except.error PyErr.decodeError := by
  intro dec data e h
  simp [play, decodeBody, h, Bind.bind, Except.bind, Functor.map, Except.map, Pure.pure, Except.pure]

/-- Witness for the amended C5 at a concrete failing decoder and body. -/
theorem c5_plist_decode_error_propagates_witness :
    play (fun _ => Except.error ()) (some binaryPlistMime) "not a plist" =
      Except.error PyErr.decodeError :=
  c5_plist_decode_error_propagates (fun _ => Except.error ()) "not a plist" () rfl

/-- Claim C6 evaluated at the failing input: POST /rate with value=1.0
does call play, but value=0.5 calls pause, because the source indexes only
the first character of the Flask query value before testing zero-ness. -/
theorem c6_rate_eval :
    rate [("value", "1.0")] = Except.ok ([BackendCall.play], "") ∧
    rate [("value", "0.5")] = Except.ok ([BackendCall.pause], "") := by
  constructor
  · with_unfolding_all rfl
  · with_unfolding_all rfl

/-- Counterexample to claim C7: a POST /rate request with no value query
parameter does not call pause; the handler produces an empty trace. -/
theorem c7_counterexample :
    ¬ ∃ calls : List BackendCall,
        rate [] = Except.ok (calls, "") ∧ BackendCall.pause ∈ calls := by
  have h : rate [] = Except.ok ([], "") := by with_unfolding_all rfl
  rintro ⟨calls, hc, hm⟩
  rw [h] at hc
  injection hc with h1
  injection h1 with h2 h3
  subst h2
  simp at hm

/-- Amended C7: for every POST /rate request with no value query parameter,
the handler makes no backend call at all and returns empty success. -/
theorem c7_rate_missing_value_no_call :
    ∀ args : List (String × String), argsGet args "value" = none →
      rate args = Except.ok ([], "") := by
  intro args h
  simp [rate, h]

/-- Witness for the amended C7 at the concrete empty query string. -/
theorem c7_rate_missing_value_no_call_witness :
    rate [] = Except.ok ([], "") :=
  c7_rate_missing_value_no_call [] rfl

/-- Counterexample to claim C8: a header-style POST /play body spelling the
key as content-location (lower case) still matches and triggers a backend
call, so field matching is not case-sensitive on the header-style path. -/
theorem c8_counterexample :
    ¬ ((play (fun _ => Except.error ()) none
          "content-location: http://e/v.mp4\r\n").map Prod.fst =
        Except.ok []) := by
  have h : play (fun _ => Except.error ()) none
      "content-location: http://e/v.mp4\r\n" =
      Except.ok ([BackendCall.play_movie "http://e/v.mp4"], "") := by
    with_unfolding_all rfl
  rw [h]
  intro hc
  injection hc with h1
  exact List.noConfusion h1

/-- Amended C8: field names are matched case-sensitively on the
binary-plist path (a lower-case key there yields no match and no backend
call), but case-insensitively on the header-style path, where the email
header semantics make a lower-case content-location key still trigger
play_movie. -/
theorem c8_case_sensitivity_amended :
    (∀ url data : String,
       play (fun _ => Except.ok [("content-location", url)])
         (some binaryPlistMime) data = Except.ok ([], "")) ∧
    (∀ url : String,
       playBody (Body.message [("content-location", url)]) =
         Except.ok [BackendCall.play_movie url]) ∧
    play (fun _ => Except.error ()) none "content-location: http://e/v.mp4\r\n" =
      Except.ok ([BackendCall.play_movie "http://e/v.mp4"], "") := by
  have hpl : ("content-location" == "Content-Location") = false := by
    with_unfolding_all rfl
  have hm1 : lowerEq "content-location" "Content-Location" = true := by
    with_unfolding_all rfl
  have hm2 : lowerEq "content-location" "Start-Position" = false := by
    with_unfolding_all rfl
  refine ⟨?_, ?_, ?_⟩
  · intro url data
    simp [play, decodeBody, playBody, Body.get, List.find?, hpl, Bind.bind, Except.bind, Functor.map, Except.map, Pure.pure, Except.pure]
  · intro url
    simp [playBody, Body.get, List.find?, hm1, hm2]
  · with_unfolding_all rfl

/-- Claim C9: every POST /reverse request, whatever its headers and body,
gets status 101 with exactly the Upgrade PTTH/1.0 and Connection Upgrade
headers, an empty body, and an empty backend trace. -/
theorem c9_reverse_handshake :
    ∀ (reqHeaders : List (String × String)) (reqData : String),
      reverse reqHeaders reqData =
        ({ status := 101
           headers := [("Upgrade", "PTTH/1.0"), ("Connection", "Upgrade")]
           body := "" }, ([] : List BackendCall)) := by
  intro hs d
  rfl

/-- Claim C10: GET /scrub and GET /playback-info produce a well-formed
response exactly when the backend pair has a falsy position or a non-null
duration; in particular a truthy position next to a null duration makes the
handler raise instead of degrading to a success response. -/
theorem c10_truthy_position_null_duration :
    ∀ (playing : Bool) (position duration : Option ℚ),
      (exceptOk (scrubGet position duration) = true ↔
         (pyTruthy position = false ∨ duration ≠ none)) ∧
      (exceptOk (playback_info playing position duration) = true ↔
         (pyTruthy position = false ∨ duration ≠ none)) := by
  intro playing position duration
  constructor
  · cases position with
    | none => simp [scrubGet, pyTruthy, exceptOk]
    | some q =>
      by_cases hq : q = 0
      · subst hq
        simp [scrubGet, pyTruthy, exceptOk]
      · cases duration with
        | none => simp [scrubGet, pyTruthy, exceptOk, hq]
        | some d => simp [scrubGet, pyTruthy, exceptOk, hq]
  · cases position with
    | none => simp [playback_info, pyTruthy, exceptOk]
    | some q =>
      by_cases hq : q = 0
      · subst hq
        simp [playback_info, pyTruthy, exceptOk]
      · cases duration with
        | none => simp [playback_info, pyTruthy, exceptOk, hq]
        | some d => simp [playback_info, pyTruthy, exceptOk, hq]

end Airplayer
